import Mathlib

/-!
Verification of the TruthVote application logic: a shallow embedding of the
dual-model analysis aggregation (`src/lib/analyzer.ts`), the per-post vote
reconciliation and vote submission guard (`src/components/Post.tsx`), the
incremental feed reconciliation (`subscribeToFeed`), and the relevant parts of
the SQL schema (uniqueness constraint and cascade delete on `votes`).

JavaScript numbers appearing as `true_rate` values are modelled as rationals;
`Math.round` is modelled exactly (round half toward positive infinity).
JavaScript `null`/`undefined` is modelled as `Option`, and the JS `||`
falsy-coalescing operator is modelled field-by-field (the empty string and the
number 0 are falsy; a list value is always truthy).
-/

namespace TruthVote

/-- JS `Math.round`: rounds to the nearest integer, halves toward +infinity. -/
def mathRound (q : ℚ) : ℤ := ⌊q + 1 / 2⌋

/-- JS `a || b` for a possibly-null string `a` (empty string is falsy). -/
def jsOrStr (a : Option String) (b : String) : String :=
  match a with
  | none => b
  | some s => if s = "" then b else s

/-- JS `a || b` for a possibly-null number `a` (0 is falsy). -/
def jsOrNum (a : Option ℚ) (b : ℚ) : ℚ :=
  match a with
  | none => b
  | some v => if v = 0 then b else v

/-- JS `a || b` for a possibly-null list `a` (any array value is truthy). -/
def jsOrList (a : Option (List String)) (b : List String) : List String :=
  match a with
  | none => b
  | some l => l

/-- JS `a || b` where both sides are possibly-null strings. -/
def jsOrOptStr (a b : Option String) : Option String :=
  match a with
  | none => b
  | some s => if s = "" then b else some s

/-- Truthiness of a possibly-null string in a JS condition. -/
def jsTruthyStr (a : Option String) : Bool :=
  match a with
  | none => false
  | some s => s ≠ ""

/-- Structure `AnalysisResult` from `src/lib/analyzer.ts`. The TS union type restricts
`verdict` to the three literals, but the normalization code passes any parsed
string through unvalidated, so the field is modelled as `String`. -/
structure AnalysisResult where
  verdict : String
  true_rate : ℚ
  reasoning : List String
  sources : List String
deriving Repr, DecidableEq

/-- Structure `CombinedAnalysis` from `src/lib/analyzer.ts`. The combined `true_rate`
is the result of `Math.round`, hence an integer. -/
structure CombinedAnalysis where
  true_rate : ℤ
  verdict : String
  reasoning : List String
  sources : List String
  models : AnalysisResult × AnalysisResult
deriving Repr, DecidableEq

/-- The fields of the JSON object a provider's reply parses to, as consumed by
the normalization code: each field may be absent (`none`). -/
structure RawJson where
  verdict : Option String
  true_rate : Option ℚ
  reasoning : Option (List String)
  sources : Option (List String)
deriving Repr, DecidableEq

/-- The environment-determined outcome of one provider call, abstracting the
network and the LLM: the client was never configured, the call threw, the
reply held no parseable JSON (for Gemini, no brace-delimited match or
`JSON.parse` failure; for OpenAI, `JSON.parse` failure), or it parsed. -/
inductive ProviderOutcome where
  | notConfigured : ProviderOutcome
  | callThrows : ProviderOutcome
  | noParseableJson : ProviderOutcome
  | parsed : RawJson → ProviderOutcome
deriving Repr, DecidableEq

/-- Normalization applied to a parsed provider JSON object, shared verbatim by
both providers (`analyzer.ts` lines 84-89 and 141-146). -/
def normalizeParsed (j : RawJson) : AnalysisResult :=
  { verdict := jsOrStr j.verdict "Mixed"
    true_rate := jsOrNum j.true_rate 50
    reasoning := jsOrList j.reasoning ["Analysis unavailable"]
    sources := jsOrList j.sources [] }

/-- Function `analyzeWithOpenAI` from `src/lib/analyzer.ts`. The claim text and web
context only shape the prompt sent to the provider; the provider's behaviour
is abstracted as a `ProviderOutcome`. -/
def analyzeWithOpenAI (_claim _webContext : String) (o : ProviderOutcome) :
    AnalysisResult :=
  match o with
  | .notConfigured =>
      { verdict := "Mixed", true_rate := 50
        reasoning := ["OpenAI API key not configured"], sources := [] }
  | .callThrows | .noParseableJson =>
      { verdict := "Mixed", true_rate := 50
        reasoning := ["OpenAI analysis temporarily unavailable"], sources := [] }
  | .parsed j => normalizeParsed j

/-- Function `analyzeWithGemini` from `src/lib/analyzer.ts`. -/
def analyzeWithGemini (_claim _webContext : String) (o : ProviderOutcome) :
    AnalysisResult :=
  match o with
  | .notConfigured =>
      { verdict := "Mixed", true_rate := 50
        reasoning := ["Gemini API key not configured"], sources := [] }
  | .callThrows | .noParseableJson =>
      { verdict := "Mixed", true_rate := 50
        reasoning := ["Gemini analysis temporarily unavailable"], sources := [] }
  | .parsed j => normalizeParsed j

/-- The combination step of `getAnalysis` (`analyzer.ts` lines 167-188),
as a function of the two provider results the `Promise.all` join delivers. -/
def getAnalysis (openaiRes geminiRes : AnalysisResult) : CombinedAnalysis :=
  let avgTrueRate := mathRound ((openaiRes.true_rate + geminiRes.true_rate) / 2)
  let verdict :=
    if avgTrueRate > 70 then "True" else if avgTrueRate < 30 then "False" else "Mixed"
  let combinedReasoning :=
    openaiRes.reasoning.map (fun r => "OpenAI: " ++ r) ++
      geminiRes.reasoning.map (fun r => "Gemini: " ++ r)
  let combinedSources := (openaiRes.sources ++ geminiRes.sources).eraseDups
  { true_rate := avgTrueRate
    verdict := verdict
    reasoning := combinedReasoning
    sources := combinedSources
    models := (openaiRes, geminiRes) }

/-- A provider result carrying only a true rate, for concrete instances. -/
def mkRes (tr : ℚ) : AnalysisResult :=
  { verdict := "Mixed", true_rate := tr, reasoning := [], sources := [] }

example : (getAnalysis (mkRes 10) (mkRes 40)).true_rate = 25 := by
  norm_num [getAnalysis, mkRes, mathRound]
example : (getAnalysis (mkRes 10) (mkRes 40)).verdict = "False" := by
  norm_num [getAnalysis, mkRes, mathRound]
example : (getAnalysis (mkRes 90) (mkRes 90)).verdict = "True" := by
  norm_num [getAnalysis, mkRes, mathRound]
example : (getAnalysis (mkRes 50) (mkRes 50)).verdict = "Mixed" := by
  norm_num [getAnalysis, mkRes, mathRound]
example : (getAnalysis (mkRes 10) (mkRes 41)).true_rate = 26 := by
  norm_num [getAnalysis, mkRes, mathRound]

/-- A row of the `votes` table, as in `src/components/Post.tsx` (`Vote`
interface). `vote_type` is a string that the DB CHECK constraint restricts to
"true" or "fake". -/
structure Vote where
  id : String
  post_id : String
  user_name : String
  vote_type : String
deriving Repr, DecidableEq

/-- The local state of the `Post` component relevant to voting. -/
structure PostState where
  votes : List Vote
  userVote : Option String
  isVoting : Bool
  optimisticVote : Option String
deriving Repr, DecidableEq

/-- The tally computation of `Post.tsx` lines 165-174: effective vote is
`optimisticVote || userVote`; base votes exclude the current user's rows;
one unit is added to the bucket the effective vote names. -/
def displayedTallies (votes : List Vote) (userVote optimisticVote : Option String)
    (currentUserName : String) : ℕ × ℕ :=
  let currentUserVote := jsOrOptStr optimisticVote userVote
  let baseVotes := votes.filter (fun v => v.user_name ≠ currentUserName)
  let trueVotes := (baseVotes.filter (fun v => v.vote_type = "true")).length +
    (if currentUserVote = some "true" then 1 else 0)
  let fakeVotes := (baseVotes.filter (fun v => v.vote_type = "fake")).length +
    (if currentUserVote = some "fake" then 1 else 0)
  (trueVotes, fakeVotes)

/-- The row `handleVote` asks the backend to insert. -/
structure InsertReq where
  post_id : String
  user_name : String
  vote_type : String
deriving Repr, DecidableEq

/-- Outcome of the awaited insert call: resolved with no error, resolved with
an error object carrying a code, or rejected (the `catch` branch). -/
inductive InsertOutcome where
  | ok : InsertOutcome
  | errCode : String → InsertOutcome
  | exn : InsertOutcome
deriving Repr, DecidableEq

/-- Result of one `handleVote` invocation: the component state afterwards,
the insert request issued (if any), and whether a blocking alert was shown. -/
structure HandleVoteResult where
  state : PostState
  insertReq : Option InsertReq
  alertShown : Bool
deriving Repr, DecidableEq

/-- Function `handleVote` from `src/components/Post.tsx` lines 101-133. The guard
`if (isVoting || userVote || optimisticVote) return;` blocks before any
network request; otherwise the optimistic marker is set, the insert issued,
errors revert the marker and alert unless the error code is the uniqueness
violation code 23505, and `isVoting` is reset in the `finally` block. -/
def handleVote (s : PostState) (postId currentUserName voteType : String)
    (outcome : InsertOutcome) : HandleVoteResult :=
  if s.isVoting || jsTruthyStr s.userVote || jsTruthyStr s.optimisticVote then
    { state := s, insertReq := none, alertShown := false }
  else
    let req : InsertReq :=
      { post_id := postId, user_name := currentUserName, vote_type := voteType }
    match outcome with
    | .ok =>
        { state := { s with optimisticVote := some voteType, isVoting := false }
          insertReq := some req, alertShown := false }
    | .errCode c =>
        { state := { s with optimisticVote := none, isVoting := false }
          insertReq := some req, alertShown := c ≠ "23505" }
    | .exn =>
        { state := { s with optimisticVote := none, isVoting := false }
          insertReq := some req, alertShown := true }

/-- A list of `votes` rows satisfies the schema's UNIQUE(post_id, user_name)
constraint (`20250928132334_empty_desert.sql`). -/
def votesUnique (table : List Vote) : Prop :=
  table.Pairwise (fun a b => ¬(a.post_id = b.post_id ∧ a.user_name = b.user_name))

instance (table : List Vote) : Decidable (votesUnique table) :=
  List.instDecidablePairwise _

/-- Modelled from the spec and the schema: inserting into `votes` under the
UNIQUE(post_id, user_name) constraint; a duplicate (post_id, user_name) pair
fails with the PostgreSQL unique-violation error code 23505 (the code
`Post.tsx` line 122 tests for), otherwise the row is appended. -/
def dbInsertVote (table : List Vote) (v : Vote) : Except String (List Vote) :=
  if table.any (fun w => w.post_id = v.post_id ∧ w.user_name = v.user_name) then
    .error "23505"
  else
    .ok (table ++ [v])

/-- A row of the `posts` table. -/
structure PostRow where
  id : String
  author_name : String
  content : String
  image_url : Option String
deriving Repr, DecidableEq

/-- The persistent state touched by the cascade: the `posts` and `votes`
tables. -/
structure DB where
  posts : List PostRow
  votes : List Vote
deriving Repr, DecidableEq

/-- Modelled from the schema: deleting a post with
`votes_post_id_fkey ... ON DELETE CASCADE` removes the post row and every
vote row referencing it (`unnamed/part_000`). -/
def deletePostCascade (db : DB) (postId : String) : DB :=
  { posts := db.posts.filter (fun p => p.id ≠ postId)
    votes := db.votes.filter (fun v => v.post_id ≠ postId) }

/-- The vote query `Post.tsx` issues: all votes with the given post id. -/
def queryVotesByPost (db : DB) (postId : String) : List Vote :=
  db.votes.filter (fun v => v.post_id = postId)

/-- A row of the feed's post list (`PostData` in the Feed component). -/
structure PostData where
  id : String
  author_name : String
  content : String
  image_url : Option String
  created_at : String
deriving Repr, DecidableEq

/-- A realtime change event on the `posts` table, as consumed by
`subscribeToFeed`: an INSERT carries the new row, a DELETE carries the old
row's id, an UPDATE carries the new row. -/
inductive FeedEvent where
  | insert : PostData → FeedEvent
  | delete : String → FeedEvent
  | update : PostData → FeedEvent
deriving Repr, DecidableEq

/-- The incremental reconciliation of `subscribeToFeed`
(`unnamed/part_002` lines 46-78): DELETE filters out the matching id, INSERT
prepends, UPDATE maps the matching entry to the new row. -/
def applyFeedEvent (posts : List PostData) (e : FeedEvent) : List PostData :=
  match e with
  | .delete oldId => posts.filter (fun post => post.id ≠ oldId)
  | .insert p => p :: posts
  | .update p => posts.map (fun post => if post.id = p.id then p else post)

/-- Spec-side shape of the neutral placeholder a failed provider call must
produce: verdict Mixed, rate 50, a single reasoning line, no sources. -/
def neutralPlaceholder (r : AnalysisResult) : Prop :=
  r.verdict = "Mixed" ∧ r.true_rate = 50 ∧ r.reasoning.length = 1 ∧ r.sources = []

/-- Spec-side effective vote: the optimistic vote if one is pending,
otherwise the confirmed vote. -/
def effectiveVote (optimisticVote userVote : Option String) : Option String :=
  match optimisticVote with
  | some v => some v
  | none => userVote

/-- Well-formedness of a stored vote value: when present it is one of the two
values the DB CHECK constraint admits. -/
def voteValueWF (o : Option String) : Prop :=
  ∀ v, o = some v → v = "true" ∨ v = "fake"

/-- C1. For every pair of provider results, `getAnalysis` returns a combined
`true_rate` equal to the rounded average of the two rates, and a combined
verdict of "True" when that rounded average exceeds 70, "False" when it is
below 30, and "Mixed" otherwise; in particular rates (10, 40) give 25 and
"False", (90, 90) give 90 and "True", and (50, 50) give 50 and "Mixed". -/
theorem getAnalysis_average_and_thresholds :
    (∀ o g : AnalysisResult,
      (getAnalysis o g).true_rate = round ((o.true_rate + g.true_rate) / 2) ∧
      (getAnalysis o g).verdict =
        (if round ((o.true_rate + g.true_rate) / 2) > 70 then "True"
         else if round ((o.true_rate + g.true_rate) / 2) < 30 then "False"
         else "Mixed")) ∧
    (getAnalysis (mkRes 10) (mkRes 40)).true_rate = 25 ∧
    (getAnalysis (mkRes 10) (mkRes 40)).verdict = "False" ∧
    (getAnalysis (mkRes 90) (mkRes 90)).true_rate = 90 ∧
    (getAnalysis (mkRes 90) (mkRes 90)).verdict = "True" ∧
    (getAnalysis (mkRes 50) (mkRes 50)).true_rate = 50 ∧
    (getAnalysis (mkRes 50) (mkRes 50)).verdict = "Mixed" := by
  refine ⟨fun o g => ⟨?_, ?_⟩, ?_, ?_, ?_, ?_, ?_, ?_⟩ <;>
    norm_num [getAnalysis, mkRes, mathRound, round_eq]

/-- C8. For every pair of provider results, the combined reasoning list is
the OpenAI reasoning lines prefixed with "OpenAI: " in their original order,
followed by the Gemini reasoning lines prefixed with "Gemini: " in their
original order; positionally, index `i` of the combined list is the prefixed
image of index `i` of the OpenAI list when `i` is in range, and of index
`i - openai.length` of the Gemini list otherwise. -/
theorem getAnalysis_reasoning_order :
    ∀ o g : AnalysisResult,
      (getAnalysis o g).reasoning =
        o.reasoning.map (fun r => "OpenAI: " ++ r) ++
          g.reasoning.map (fun r => "Gemini: " ++ r) ∧
      (∀ i : ℕ, i < o.reasoning.length →
        ((getAnalysis o g).reasoning)[i]? =
          (o.reasoning[i]?).map (fun r => "OpenAI: " ++ r)) ∧
      (∀ i : ℕ,
        ((getAnalysis o g).reasoning)[o.reasoning.length + i]? =
          (g.reasoning[i]?).map (fun r => "Gemini: " ++ r)) := by
  intro o g
  refine ⟨rfl, fun i hi => ?_, fun i => ?_⟩
  · rw [show (getAnalysis o g).reasoning =
        o.reasoning.map (fun r => "OpenAI: " ++ r) ++
          g.reasoning.map (fun r => "Gemini: " ++ r) from rfl]
    rw [List.getElem?_append_left (by simpa using hi), List.getElem?_map]
  · rw [show (getAnalysis o g).reasoning =
        o.reasoning.map (fun r => "OpenAI: " ++ r) ++
          g.reasoning.map (fun r => "Gemini: " ++ r) from rfl]
    rw [List.getElem?_append_right (by simp), List.getElem?_map]
    simp

/-- C4. For every input claim and web context, each provider wrapper maps
each of the three failure modes (client not configured, call throws, no
parseable JSON in the reply) to the neutral placeholder: verdict "Mixed",
true_rate 50, exactly one explanatory reasoning line, empty sources. -/
theorem analyze_failures_neutral_placeholder :
    ∀ claim webContext : String,
      neutralPlaceholder (analyzeWithOpenAI claim webContext .notConfigured) ∧
      neutralPlaceholder (analyzeWithOpenAI claim webContext .callThrows) ∧
      neutralPlaceholder (analyzeWithOpenAI claim webContext .noParseableJson) ∧
      neutralPlaceholder (analyzeWithGemini claim webContext .notConfigured) ∧
      neutralPlaceholder (analyzeWithGemini claim webContext .callThrows) ∧
      neutralPlaceholder (analyzeWithGemini claim webContext .noParseableJson) := by
  intro claim webContext
  refine ⟨?_, ?_, ?_, ?_, ?_, ?_⟩ <;>
    exact ⟨rfl, rfl, rfl, rfl⟩

/-- C9. Falsy JSON fields are replaced by defaults during normalization: a
parsed `true_rate` of exactly 0 is returned as 50, a missing or empty
`verdict` is returned as "Mixed", and consequently neither provider wrapper
can ever return a `true_rate` of 0, whatever the provider did. -/
theorem analyze_falsy_defaults :
    ∀ (claim webContext : String) (v : Option String) (tr : Option ℚ)
      (r s : Option (List String)),
      (analyzeWithOpenAI claim webContext (.parsed ⟨v, some 0, r, s⟩)).true_rate = 50 ∧
      (analyzeWithGemini claim webContext (.parsed ⟨v, some 0, r, s⟩)).true_rate = 50 ∧
      (analyzeWithOpenAI claim webContext (.parsed ⟨none, tr, r, s⟩)).verdict = "Mixed" ∧
      (analyzeWithOpenAI claim webContext (.parsed ⟨some "", tr, r, s⟩)).verdict = "Mixed" ∧
      (analyzeWithGemini claim webContext (.parsed ⟨none, tr, r, s⟩)).verdict = "Mixed" ∧
      (analyzeWithGemini claim webContext (.parsed ⟨some "", tr, r, s⟩)).verdict = "Mixed" ∧
      (∀ o : ProviderOutcome,
        (analyzeWithOpenAI claim webContext o).true_rate ≠ 0 ∧
        (analyzeWithGemini claim webContext o).true_rate ≠ 0) := by
  intro claim webContext v tr r s
  refine ⟨by simp [analyzeWithOpenAI, normalizeParsed, jsOrNum],
    by simp [analyzeWithGemini, normalizeParsed, jsOrNum],
    rfl, rfl, rfl, rfl, fun o => ⟨?_, ?_⟩⟩ <;>
  · cases o with
    | parsed j =>
        simp only [analyzeWithOpenAI, analyzeWithGemini, normalizeParsed, jsOrNum]
        cases j.true_rate with
        | none => norm_num
        | some q =>
            by_cases hq : q = 0 <;> simp [hq]
    | notConfigured => norm_num [analyzeWithOpenAI, analyzeWithGemini]
    | callThrows => norm_num [analyzeWithOpenAI, analyzeWithGemini]
    | noParseableJson => norm_num [analyzeWithOpenAI, analyzeWithGemini]

/-- C10. For provider rates in [0, 100], the combined analysis has a
`true_rate` in [0, 100] and a verdict among "True", "False" and "Mixed",
whatever verdict strings the two provider results carry. -/
theorem getAnalysis_range_invariant :
    ∀ o g : AnalysisResult,
      0 ≤ o.true_rate → o.true_rate ≤ 100 →
      0 ≤ g.true_rate → g.true_rate ≤ 100 →
      0 ≤ (getAnalysis o g).true_rate ∧ (getAnalysis o g).true_rate ≤ 100 ∧
        ((getAnalysis o g).verdict = "True" ∨ (getAnalysis o g).verdict = "False" ∨
          (getAnalysis o g).verdict = "Mixed") := by
  intro o g ho1 ho2 hg1 hg2
  have htr : (getAnalysis o g).true_rate =
      ⌊(o.true_rate + g.true_rate) / 2 + 1 / 2⌋ := rfl
  refine ⟨?_, ?_, ?_⟩
  · rw [htr]
    exact Int.floor_nonneg.mpr (by linarith)
  · rw [htr]
    have h101 : ⌊(o.true_rate + g.true_rate) / 2 + 1 / 2⌋ < (101 : ℤ) :=
      Int.floor_lt.mpr (by push_cast; linarith)
    omega
  · have hv : (getAnalysis o g).verdict =
        (if mathRound ((o.true_rate + g.true_rate) / 2) > 70 then "True"
         else if mathRound ((o.true_rate + g.true_rate) / 2) < 30 then "False"
         else "Mixed") := rfl
    rw [hv]
    split_ifs <;> simp

/-- Closed instance of the range invariant at two placeholder results. -/
theorem getAnalysis_range_invariant_witness :
    0 ≤ (mkRes 50).true_rate ∧ (mkRes 50).true_rate ≤ 100 ∧
      (0 ≤ (getAnalysis (mkRes 50) (mkRes 50)).true_rate ∧
        (getAnalysis (mkRes 50) (mkRes 50)).true_rate ≤ 100 ∧
        ((getAnalysis (mkRes 50) (mkRes 50)).verdict = "True" ∨
          (getAnalysis (mkRes 50) (mkRes 50)).verdict = "False" ∨
          (getAnalysis (mkRes 50) (mkRes 50)).verdict = "Mixed")) :=
  ⟨by norm_num [mkRes], by norm_num [mkRes],
    getAnalysis_range_invariant (mkRes 50) (mkRes 50)
      (by norm_num [mkRes]) (by norm_num [mkRes])
      (by norm_num [mkRes]) (by norm_num [mkRes])⟩

/-- C2. The displayed tallies equal, for each vote type, the number of votes
of that type whose `user_name` differs from the current user, plus one for
the bucket the effective vote (optimistic if pending, else confirmed) names;
and prepending a confirmed row of the current user to the vote set leaves the
displayed tallies unchanged, so the user's vote is never counted twice. -/
theorem displayedTallies_counts :
    ∀ (votes : List Vote) (userVote optimisticVote : Option String)
      (currentUserName : String),
      optimisticVote ≠ some "" →
      (displayedTallies votes userVote optimisticVote currentUserName).1 =
        votes.countP
            (fun v => decide (v.user_name ≠ currentUserName ∧ v.vote_type = "true")) +
          (if effectiveVote optimisticVote userVote = some "true" then 1 else 0) ∧
      (displayedTallies votes userVote optimisticVote currentUserName).2 =
        votes.countP
            (fun v => decide (v.user_name ≠ currentUserName ∧ v.vote_type = "fake")) +
          (if effectiveVote optimisticVote userVote = some "fake" then 1 else 0) ∧
      (∀ w : Vote, w.user_name = currentUserName →
        displayedTallies (w :: votes) userVote optimisticVote currentUserName =
          displayedTallies votes userVote optimisticVote currentUserName) := by
  intro votes uv ov u hov
  have heff : jsOrOptStr ov uv = effectiveVote ov uv := by
    cases ov with
    | none => rfl
    | some s =>
        have hs : s ≠ "" := fun h => hov (by rw [h])
        simp [jsOrOptStr, effectiveVote, hs]
  have hcount : ∀ t : String,
      ((votes.filter fun v => v.user_name ≠ u).filter fun v => v.vote_type = t).length =
        votes.countP fun v => decide (v.user_name ≠ u ∧ v.vote_type = t) := by
    intro t
    rw [← List.countP_eq_length_filter, List.countP_filter]
    refine List.countP_congr ?_
    intro x _
    simp only [Bool.and_eq_true, decide_eq_true_eq]
    tauto
  refine ⟨?_, ?_, ?_⟩
  · simp only [displayedTallies]
    rw [hcount "true", heff]
  · simp only [displayedTallies]
    rw [hcount "fake", heff]
  · intro w hw
    simp [displayedTallies, List.filter_cons, hw]

/-- Closed instance of the tally computation: one other user voted true, the
current user has both a confirmed row and a pending optimistic marker. -/
theorem displayedTallies_counts_witness :
    (some "fake" : Option String) ≠ some "" ∧
      ((displayedTallies
            [⟨"v1", "p1", "bob", "true"⟩, ⟨"v2", "p1", "alice", "fake"⟩]
            (some "fake") (some "fake") "alice").1 =
          ([⟨"v1", "p1", "bob", "true"⟩,
              (⟨"v2", "p1", "alice", "fake"⟩ : Vote)] : List Vote).countP
              (fun v => decide (v.user_name ≠ "alice" ∧ v.vote_type = "true")) +
            (if effectiveVote (some "fake") (some "fake") = some "true" then 1
             else 0) ∧
        (displayedTallies
            [⟨"v1", "p1", "bob", "true"⟩, ⟨"v2", "p1", "alice", "fake"⟩]
            (some "fake") (some "fake") "alice").2 =
          ([⟨"v1", "p1", "bob", "true"⟩,
              (⟨"v2", "p1", "alice", "fake"⟩ : Vote)] : List Vote).countP
              (fun v => decide (v.user_name ≠ "alice" ∧ v.vote_type = "fake")) +
            (if effectiveVote (some "fake") (some "fake") = some "fake" then 1
             else 0) ∧
        (∀ w : Vote, w.user_name = "alice" →
          displayedTallies
              (w :: [⟨"v1", "p1", "bob", "true"⟩, ⟨"v2", "p1", "alice", "fake"⟩])
              (some "fake") (some "fake") "alice" =
            displayedTallies
              [⟨"v1", "p1", "bob", "true"⟩, ⟨"v2", "p1", "alice", "fake"⟩]
              (some "fake") (some "fake") "alice")) :=
  ⟨by decide,
    displayedTallies_counts
      [⟨"v1", "p1", "bob", "true"⟩, ⟨"v2", "p1", "alice", "fake"⟩]
      (some "fake") (some "fake") "alice" (by decide)⟩

/-- C3. Whenever the user has a confirmed vote, a pending optimistic vote, or
a request in flight, `handleVote` returns at the guard: no insert request is
issued, the state is unchanged, and no alert is shown — so a user with an
existing confirmed vote can never submit a second vote through the
component. -/
theorem handleVote_blocked :
    ∀ (s : PostState) (postId currentUserName voteType : String)
      (outcome : InsertOutcome),
      voteValueWF s.userVote → voteValueWF s.optimisticVote →
      (s.isVoting = true ∨ s.userVote.isSome ∨ s.optimisticVote.isSome) →
      handleVote s postId currentUserName voteType outcome =
        { state := s, insertReq := none, alertShown := false } := by
  intro s postId currentUserName voteType outcome hwfU hwfO hblock
  have hguard :
      (s.isVoting || jsTruthyStr s.userVote || jsTruthyStr s.optimisticVote) = true := by
    rcases hblock with h | h | h
    · simp [h]
    · rcases Option.isSome_iff_exists.mp h with ⟨v, hv⟩
      rcases hwfU v hv with rfl | rfl <;> simp [jsTruthyStr, hv]
    · rcases Option.isSome_iff_exists.mp h with ⟨v, hv⟩
      rcases hwfO v hv with rfl | rfl <;> simp [jsTruthyStr, hv]
  simp [handleVote, hguard]

/-- Closed instance of the vote guard: a user with a confirmed "true" vote
gets no second insert. -/
theorem handleVote_blocked_witness :
    voteValueWF (PostState.mk [] (some "true") false none).userVote ∧
      voteValueWF (PostState.mk [] (some "true") false none).optimisticVote ∧
      ((PostState.mk [] (some "true") false none).isVoting = true ∨
        (PostState.mk [] (some "true") false none).userVote.isSome ∨
        (PostState.mk [] (some "true") false none).optimisticVote.isSome) ∧
      handleVote (PostState.mk [] (some "true") false none) "p1" "alice" "fake" .ok =
        { state := PostState.mk [] (some "true") false none
          insertReq := none, alertShown := false } := by
  have hwfU : voteValueWF (PostState.mk [] (some "true") false none).userVote := by
    intro v hv
    injection hv with h
    exact Or.inl h.symm
  have hwfO : voteValueWF (PostState.mk [] (some "true") false none).optimisticVote := by
    intro v hv
    cases hv
  have hb : (PostState.mk [] (some "true") false none).isVoting = true ∨
      (PostState.mk [] (some "true") false none).userVote.isSome ∨
      (PostState.mk [] (some "true") false none).optimisticVote.isSome :=
    Or.inr (Or.inl rfl)
  exact ⟨hwfU, hwfO, hb,
    handleVote_blocked (PostState.mk [] (some "true") false none)
      "p1" "alice" "fake" .ok hwfU hwfO hb⟩

/-- C5. The schema enforces at most one vote per (post_id, user_name) pair:
a successful insert preserves the uniqueness invariant, and an insert can
only fail with the unique-violation code 23505, which happens exactly when a
row with the same pair already exists. On the client, an insert error with
code 23505 clears the optimistic marker and shows no alert, while every
other insert error (and any thrown exception) clears the marker and shows a
blocking alert. -/
theorem votes_unique_and_duplicate_silent :
    (∀ (table : List Vote) (v : Vote) (t2 : List Vote),
      votesUnique table → dbInsertVote table v = .ok t2 → votesUnique t2) ∧
    (∀ (table : List Vote) (v : Vote) (c : String),
      dbInsertVote table v = .error c →
        c = "23505" ∧
          ∃ w ∈ table, w.post_id = v.post_id ∧ w.user_name = v.user_name) ∧
    (∀ (s : PostState) (postId currentUserName voteType c : String),
      s.isVoting = false → s.userVote = none → s.optimisticVote = none →
      ((handleVote s postId currentUserName voteType
          (.errCode "23505")).state.optimisticVote = none ∧
        (handleVote s postId currentUserName voteType
          (.errCode "23505")).alertShown = false) ∧
      (c ≠ "23505" →
        (handleVote s postId currentUserName voteType
            (.errCode c)).state.optimisticVote = none ∧
          (handleVote s postId currentUserName voteType
            (.errCode c)).alertShown = true) ∧
      ((handleVote s postId currentUserName voteType
          .exn).state.optimisticVote = none ∧
        (handleVote s postId currentUserName voteType
          .exn).alertShown = true)) := by
  refine ⟨?_, ?_, ?_⟩
  · intro table v t2 huniq hok
    unfold dbInsertVote at hok
    by_cases hdup :
        (table.any fun w => w.post_id = v.post_id ∧ w.user_name = v.user_name) = true
    · rw [if_pos hdup] at hok
      cases hok
    · rw [if_neg hdup] at hok
      cases hok
      rw [votesUnique, List.pairwise_append]
      refine ⟨huniq, List.pairwise_singleton _ _, ?_⟩
      intro a ha b hb
      simp only [List.mem_singleton] at hb
      subst hb
      intro hc
      exact hdup (List.any_eq_true.mpr ⟨a, ha, by simpa using hc⟩)
  · intro table v c herr
    unfold dbInsertVote at herr
    by_cases hdup :
        (table.any fun w => w.post_id = v.post_id ∧ w.user_name = v.user_name) = true
    · rw [if_pos hdup] at herr
      cases herr
      rcases List.any_eq_true.mp hdup with ⟨w, hw, hww⟩
      exact ⟨rfl, w, hw, by simpa using hww⟩
    · rw [if_neg hdup] at herr
      cases herr
  · intro s postId currentUserName voteType c h1 h2 h3
    refine ⟨⟨?_, ?_⟩, fun hc => ⟨?_, ?_⟩, ?_, ?_⟩
    · simp [handleVote, jsTruthyStr, h1, h2, h3]
    · simp [handleVote, jsTruthyStr, h1, h2, h3]
    · simp [handleVote, jsTruthyStr, h1, h2, h3]
    · simp [handleVote, jsTruthyStr, h1, h2, h3, hc]
    · simp [handleVote, jsTruthyStr, h1, h2, h3]
    · simp [handleVote, jsTruthyStr, h1, h2, h3]

/-- Closed instance of the uniqueness constraint and duplicate handling: an
insert into an empty table succeeds preserving uniqueness, reinserting the
same (post, voter) pair fails with 23505, and a non-23505 error alerts. -/
theorem votes_unique_and_duplicate_silent_witness :
    votesUnique ([] : List Vote) ∧
      dbInsertVote [] ⟨"v1", "p1", "alice", "true"⟩ =
        .ok [⟨"v1", "p1", "alice", "true"⟩] ∧
      votesUnique [(⟨"v1", "p1", "alice", "true"⟩ : Vote)] ∧
      dbInsertVote [⟨"v1", "p1", "alice", "true"⟩] ⟨"v2", "p1", "alice", "fake"⟩ =
        .error "23505" ∧
      ("42" : String) ≠ "23505" ∧
      (PostState.mk [] none false none).isVoting = false ∧
      (handleVote (PostState.mk [] none false none) "p1" "alice" "true"
          (.errCode "42")).state.optimisticVote = none ∧
      (handleVote (PostState.mk [] none false none) "p1" "alice" "true"
          (.errCode "42")).alertShown = true := by
  have h42 : ("42" : String) ≠ "23505" := by decide
  have hclient :=
    (votes_unique_and_duplicate_silent.2.2 (PostState.mk [] none false none)
        "p1" "alice" "true" "42" rfl rfl rfl).2.1 h42
  exact ⟨by decide, by rfl,
    votes_unique_and_duplicate_silent.1 [] ⟨"v1", "p1", "alice", "true"⟩ _
      (by decide) (by rfl),
    by rfl, h42, rfl, hclient.1, hclient.2⟩

/-- C6. Feed reconciliation: an INSERT event prepends the new post; a DELETE
event keeps exactly the posts whose id differs from the event's old id, in
their original relative order; an UPDATE event keeps the length and maps, at
every position, the entry with the matching id to the new row while leaving
every other entry unchanged. -/
theorem applyFeedEvent_reconciliation :
    ∀ (posts : List PostData) (p : PostData) (i : String) (q : PostData),
      applyFeedEvent posts (.insert p) = p :: posts ∧
      (q ∈ applyFeedEvent posts (.delete i) ↔ q ∈ posts ∧ q.id ≠ i) ∧
      List.Sublist (applyFeedEvent posts (.delete i)) posts ∧
      (applyFeedEvent posts (.update p)).length = posts.length ∧
      (∀ k : ℕ, (applyFeedEvent posts (.update p))[k]? =
        (posts[k]?).map fun post => if post.id = p.id then p else post) := by
  intro posts p i q
  refine ⟨rfl, ?_, ?_, ?_, fun k => ?_⟩
  · simp [applyFeedEvent, List.mem_filter]
  · exact List.filter_sublist posts
  · simp [applyFeedEvent]
  · simp [applyFeedEvent]

/-- C7. Deleting a post cascades at the storage layer: after
`deletePostCascade`, no remaining vote references the deleted post, and the
vote query filtered by that post id returns the empty set. -/
theorem deletePostCascade_votes_empty :
    ∀ (db : DB) (postId : String),
      queryVotesByPost (deletePostCascade db postId) postId = [] ∧
      (∀ v ∈ (deletePostCascade db postId).votes, v.post_id ≠ postId) := by
  intro db postId
  constructor
  · simp only [queryVotesByPost, deletePostCascade, List.filter_filter]
    refine List.filter_eq_nil_iff.mpr ?_
    intro v _
    simp
  · intro v hv
    simp only [deletePostCascade, List.mem_filter, decide_eq_true_eq] at hv
    exact hv.2

end TruthVote
